import Mathlib

/-!
Verification of the session/request orchestration logic of the Roborock
backend (`packages/backend/scripts/roborock_daemon.py`, with the one-shot
CLI variant in `packages/backend/scripts/roborock_bridge.py`).

The Python daemon is shallowly embedded: the `RoborockDaemon` object state
becomes the structure `DaemonState`, each method becomes a pure function on
that state, and the external collaborators (MQTT session, message codec)
are represented by oracles: a `SendEnv` record saying whether `subscribe` or
`publish` raise, and which inbound payload (already classified by the
external `MessageParser.parse` / `decode_rpc_response` codec) arrives during
the wait.  Transport calls are recorded as an `Event` list.  Time is modeled
in integer milliseconds (the code's `timeout=30.0` seconds is 30000 ms).

Python dicts are modeled as association lists with dict semantics
(`insertK` replaces, `eraseK` deletes the key).  The daemon's
`pending_responses : dict[str, Future]` maps request ids to future objects;
since a future outlives its removal from the dict (the sender still awaits
it), the dict is modeled as `pendingResponses : List (String × Nat)`
mapping request ids to references into a future heap
`futures : List (Nat × SlotState)`.
-/

namespace Roborock

/-! ## Association-list kit (Python dict semantics) -/

/-- First-match lookup, like `dict.get`. -/
def lookupK {κ β : Type} [DecidableEq κ] (k : κ) : List (κ × β) → Option β
  | [] => none
  | (k', v) :: t => if k' = k then some v else lookupK k t

/-- Delete a key, like `del d[k]` / `d.pop(k, None)`. -/
def eraseK {κ β : Type} [DecidableEq κ] (k : κ) : List (κ × β) → List (κ × β)
  | [] => []
  | p :: t => if p.1 = k then eraseK k t else p :: eraseK k t

/-- Insert-or-replace, like `d[k] = v`. -/
def insertK {κ β : Type} [DecidableEq κ] (k : κ) (v : β) (l : List (κ × β)) : List (κ × β) :=
  (k, v) :: eraseK k l

/-- Update the value stored at a key in place. -/
def updateK {κ β : Type} [DecidableEq κ] (k : κ) (f : β → β) : List (κ × β) → List (κ × β)
  | [] => []
  | p :: t => if p.1 = k then (p.1, f p.2) :: updateK k f t else p :: updateK k f t

theorem lookupK_eraseK_self {κ β : Type} [DecidableEq κ] (k : κ) (l : List (κ × β)) :
    lookupK k (eraseK k l) = none := by
  induction l with
  | nil => rfl
  | cons p t ih =>
      by_cases h : p.1 = k
      · simpa [eraseK, h] using ih
      · simpa [eraseK, h, lookupK] using ih

theorem lookupK_eraseK_ne {κ β : Type} [DecidableEq κ] (k k' : κ) (l : List (κ × β))
    (h : k' ≠ k) : lookupK k' (eraseK k l) = lookupK k' l := by
  induction l with
  | nil => rfl
  | cons p t ih =>
      by_cases hp : p.1 = k
      · subst hp
        simpa [eraseK, lookupK, Ne.symm h] using ih
      · by_cases hq : p.1 = k'
        · subst hq
          simp [eraseK, hp, lookupK]
        · simpa [eraseK, hp, lookupK, hq] using ih

@[simp] theorem lookupK_insertK_self {κ β : Type} [DecidableEq κ] (k : κ) (v : β)
    (l : List (κ × β)) : lookupK k (insertK k v l) = some v := by
  simp [insertK, lookupK]

theorem lookupK_insertK_ne {κ β : Type} [DecidableEq κ] (k k' : κ) (v : β)
    (l : List (κ × β)) (h : k' ≠ k) : lookupK k' (insertK k v l) = lookupK k' l := by
  have h1 : k ≠ k' := fun hk => h hk.symm
  simp [insertK, lookupK, h1, lookupK_eraseK_ne k k' l h]

theorem eraseK_eq_self_of_lookupK_none {κ β : Type} [DecidableEq κ] (k : κ)
    (l : List (κ × β)) (h : lookupK k l = none) : eraseK k l = l := by
  induction l with
  | nil => rfl
  | cons p t ih =>
      by_cases hp : p.1 = k
      · simp [lookupK, hp] at h
      · simp only [lookupK, if_neg hp] at h
        simp [eraseK, hp, ih h]

theorem lookupK_updateK_self {κ β : Type} [DecidableEq κ] (k : κ) (f : β → β)
    (l : List (κ × β)) : lookupK k (updateK k f l) = (lookupK k l).map f := by
  induction l with
  | nil => rfl
  | cons p t ih =>
      by_cases hp : p.1 = k
      · simp [updateK, lookupK, hp]
      · simpa [updateK, lookupK, hp] using ih

theorem lookupK_updateK_ne {κ β : Type} [DecidableEq κ] (k k' : κ) (f : β → β)
    (l : List (κ × β)) (h : k' ≠ k) : lookupK k' (updateK k f l) = lookupK k' l := by
  induction l with
  | nil => rfl
  | cons p t ih =>
      by_cases hp : p.1 = k
      · subst hp
        simpa [updateK, lookupK, Ne.symm h] using ih
      · by_cases hq : p.1 = k'
        · subst hq
          simp [updateK, lookupK, hp]
        · simpa [updateK, lookupK, hp, hq] using ih

/-! ## Data model -/

/-- The decoded RPC reply produced by the external `decode_rpc_response`:
an optional application-level error (`response.api_error`) and an opaque
result payload (`response.data`). -/
structure RpcResponse where
  apiError : Option String
  payload : String
  deriving DecidableEq, Repr

/-- A Python exception, as far as the daemon's handlers can see it:
whether it is a `RoborockException` (caught at line 197) or any other
`Exception` (caught at line 199), plus its `str(e)` message. -/
structure Exc where
  isRoborock : Bool
  msg : String
  deriving DecidableEq, Repr

/-- One message produced by `MessageParser.parse`: either an
`RPC_RESPONSE`-protocol message (already run through `decode_rpc_response`)
or a message of some other protocol, which `on_message` ignores. -/
inductive DecodedMsg where
  | rpcResponse (resp : RpcResponse)
  | otherProtocol
  deriving DecidableEq, Repr

/-- The outcome of decoding one inbound payload inside `on_message`'s `try`:
either every message decodes (`ok`), or an exception is raised after a
prefix of the messages was already handled (`fail`; a payload that fails
`MessageParser.parse` itself is `fail [] e`). -/
inductive ParseEvent where
  | ok (msgs : List DecodedMsg)
  | fail (msgs : List DecodedMsg) (e : Exc)
  deriving DecidableEq, Repr

/-- The state of one `asyncio.Future` completion slot. -/
inductive SlotState where
  | waiting
  | doneOk (resp : RpcResponse)
  | doneExc (e : Exc)
  | cancelled
  deriving DecidableEq, Repr

/-- `fut.done()`. -/
def SlotState.isDone : SlotState → Bool
  | .waiting => false
  | _ => true

/-- The per-user credential material the daemon stores: `rriot.u` (the
realm segment) and the account username that the external
`create_mqtt_params` derives from it; both appear in topic names. -/
structure Rriot where
  realm : String
  username : String
  deriving DecidableEq, Repr

/-- A transport (MQTT session) call, recorded for the claims that assert
which transport operations happen. -/
inductive Event where
  | subscribe (topic : String) (tok : Nat)
  | unsubscribe (tok : Nat)
  | publish (topic : String)
  | closeTransport (user : String)
  | connect (user : String)
  deriving DecidableEq, Repr

/-- The mutable state of the `RoborockDaemon` object (`__init__`,
lines 54-60), plus the future heap and two allocation counters for
the model's fresh unsubscribe tokens and future references. -/
structure DaemonState where
  /-- `self.sessions` key set (the session handles are opaque). -/
  sessions : List String
  /-- `self.rriot_data`. -/
  rriotData : List (String × Rriot)
  /-- `self.subscriptions`: user id → (device id → unsubscribe token). -/
  subscriptions : List (String × List (String × Nat))
  /-- `self.pending_responses`: request id → future reference. -/
  pendingResponses : List (String × Nat)
  /-- The future heap: reference → slot state. -/
  futures : List (Nat × SlotState)
  /-- `self.request_counter`. -/
  requestCounter : Nat
  /-- Fresh-token source for `session.subscribe`'s returned unsubscribe
  closures. -/
  nextToken : Nat
  /-- Fresh-reference source for `create_future()`. -/
  nextFuture : Nat
  deriving DecidableEq, Repr

/-- The JSON dict `send_command` returns: `{"success": True, "result": ...}`
or `{"success": False, "error": ...}`. -/
inductive SendResult where
  | ok (payload : String)
  | err (msg : String)
  deriving DecidableEq, Repr

/-- The JSON dict `initialize` returns. -/
inductive InitResult where
  | ok
  | err (msg : String)
  deriving DecidableEq, Repr

/-- The oracle for one `send_command` call's interaction with the external
world: whether `session.subscribe` raises, whether `session.publish`
raises, and the inbound payload (if any) delivered to this request's
handler during the wait, with its arrival time in milliseconds. -/
structure SendEnv where
  subscribeFail : Option Exc
  publishFail : Option Exc
  inbound : Option (Nat × ParseEvent)
  deriving DecidableEq, Repr

/-! ## Request Correlator: futures and the two resolution paths -/

/-- Apply `f` to the slot stored at heap reference `fr`. -/
def updateFut (fr : Nat) (f : SlotState → SlotState) (st : DaemonState) : DaemonState :=
  { st with futures := updateK fr f st.futures }

/-- `if not fut.done(): fut.set_result(response)` (lines 151-152). -/
def setResultOk (fr : Nat) (resp : RpcResponse) : DaemonState → DaemonState :=
  updateFut fr fun s => if s = .waiting then .doneOk resp else s

/-- `if not fut.done(): fut.set_exception(e)` (lines 157-158). -/
def setResultExc (fr : Nat) (e : Exc) : DaemonState → DaemonState :=
  updateFut fr fun s => if s = .waiting then .doneExc e else s

/-- `asyncio.wait_for` cancels the awaited future when the timeout fires;
cancelling an already-done future is a no-op. -/
def cancelFut (fr : Nat) : DaemonState → DaemonState :=
  updateFut fr fun s => if s = .waiting then .cancelled else s

/-- The body of `on_message`'s `for` loop for one decoded message
(lines 146-152): an `RPC_RESPONSE` message pops the pending entry for this
handler's request id, if still present, and resolves the future if it is
not already done; any other message is ignored. -/
def processMsg (rid : String) (st : DaemonState) (m : DecodedMsg) : DaemonState :=
  match m with
  | .rpcResponse resp =>
      match lookupK rid st.pendingResponses with
      | some fr =>
          setResultOk fr resp { st with pendingResponses := eraseK rid st.pendingResponses }
      | none => st
  | .otherProtocol => st

/-- The whole `on_message` handler (lines 142-158) for one inbound payload.
On a decode exception (lines 153-158) the handler pops the pending entry,
if still present, and fails the future with the exception. -/
def onMessage (rid : String) (ev : ParseEvent) (st : DaemonState) : DaemonState :=
  match ev with
  | .ok msgs => msgs.foldl (processMsg rid) st
  | .fail msgs e =>
      let st1 := msgs.foldl (processMsg rid) st
      match lookupK rid st1.pendingResponses with
      | some fr =>
          setResultExc fr e { st1 with pendingResponses := eraseK rid st1.pendingResponses }
      | none => st1

/-- The timeout path (lines 193-194): `asyncio.wait_for` cancels the future
when the deadline fires, then `except asyncio.TimeoutError` runs
`self.pending_responses.pop(request_id, None)`. -/
def timeoutPathStep (rid : String) (fr : Nat) (st : DaemonState) : DaemonState :=
  let st1 := cancelFut fr st
  { st1 with pendingResponses := eraseK rid st1.pendingResponses }

/-- `timeout=30.0` seconds (line 189), in milliseconds.  `send_command`
takes no timeout argument; this constant is the only deadline it ever
uses. -/
def commandTimeout : Nat := 30000

/-- `request_id = f"{user_id}:{device_id}:{self.request_counter}"`
(line 138). -/
def requestId (userId deviceId : String) (n : Nat) : String :=
  userId ++ ":" ++ deviceId ++ ":" ++ Nat.repr n

/-- `{"success": False, "error": str(e)}` for a `RoborockException`
(lines 197-198), `{"success": False, "error": f"Unexpected error: ..."}`
for any other exception (lines 199-201). -/
def excResult (e : Exc) : SendResult :=
  .err (if e.isRoborock then e.msg else "Unexpected error: " ++ e.msg)

/-- Lines 187-195: await the completion slot with the fixed 30-second
timeout.  `inbound` is the inbound payload, if any, that the transport
delivers to this request's handler during the wait, with its arrival time
in milliseconds; an arrival at or after the deadline is not seen because
`wait_for` has already fired.  Returns the post-wait state, the value
`send_command` produces, and the time at which the wait ends. -/
def awaitStep (st : DaemonState) (rid : String) (fr : Nat)
    (inbound : Option (Nat × ParseEvent)) : DaemonState × SendResult × Nat :=
  let stw := match inbound with
    | some (t, ev) => if t < commandTimeout then onMessage rid ev st else st
    | none => st
  let tArr : Nat := match inbound with
    | some (t, _) => if t < commandTimeout then t else commandTimeout
    | none => commandTimeout
  match lookupK fr stw.futures with
  | some (SlotState.doneOk resp) =>
      (stw,
       (match resp.apiError with
        | some msg => .err msg
        | none => .ok resp.payload),
       tArr)
  | some (SlotState.doneExc e) => (stw, excResult e, tArr)
  | _ => (timeoutPathStep rid fr stw, .err "Command timeout", commandTimeout)

/-! ## Subscription Multiplexer step inside `send_command` (lines 160-171) -/

/-- State effect of the subscription block when `session.subscribe`
succeeds: both branches end with
`self.subscriptions[user_id][device_id] = unsubscribe`, storing the fresh
token (the `not in` branch via `setdefault`). -/
def subscribeStep (st : DaemonState) (user device : String) : DaemonState :=
  let userSubs := (lookupK user st.subscriptions).getD []
  { st with
      nextToken := st.nextToken + 1,
      subscriptions := insertK user (insertK device st.nextToken userSubs) st.subscriptions }

/-- Transport calls of the subscription block when `session.subscribe`
succeeds: a first send to the device just subscribes (lines 162-164); a
later send first calls the stored `old_unsub()` and then subscribes again
(lines 166-171). -/
def subscribeEvents (st : DaemonState) (user device topic : String) : List Event :=
  match lookupK device ((lookupK user st.subscriptions).getD []) with
  | none => [.subscribe topic st.nextToken]
  | some oldTok => [.unsubscribe oldTok, .subscribe topic st.nextToken]

/-- Transport calls made before `session.subscribe` raises: in the
replace branch `old_unsub()` (line 169) has already run; in either branch
the store (line 164 / 171) is never reached, so the map is unchanged. -/
def subscribeFailEvents (st : DaemonState) (user device : String) : List Event :=
  match lookupK device ((lookupK user st.subscriptions).getD []) with
  | none => []
  | some oldTok => [.unsubscribe oldTok]

/-! ## `send_command` (lines 118-201) -/

/-- Line 131. -/
def notInitMsg : String := "Session not initialized. Call /init first."

/-- `send_command(user_id, device_id, local_key, command, params)`
(lines 118-201), with the external interactions given by `env`.  Returns
the post-call daemon state, the returned dict, the transport calls made,
and the time at which the call returns (0 for pre-wait error paths). -/
def sendCommand (st : DaemonState) (user device localKey command : String)
    (env : SendEnv) : DaemonState × SendResult × List Event × Nat :=
  -- lines 127-131: session/rriot lookup, typed not-initialized failure
  if user ∈ st.sessions then
    match lookupK user st.rriotData with
    | some rr =>
        -- lines 136-140: allocate the id, create the future, register it
        let rid := requestId user device (st.requestCounter + 1)
        let fr := st.nextFuture
        let st1 := { st with
          requestCounter := st.requestCounter + 1,
          nextFuture := fr + 1,
          futures := insertK fr .waiting st.futures,
          pendingResponses := insertK rid fr st.pendingResponses }
        let subTopic := "rr/m/o/" ++ rr.realm ++ "/" ++ rr.username ++ "/" ++ device
        let pubTopic := "rr/m/i/" ++ rr.realm ++ "/" ++ rr.username ++ "/" ++ device
        match env.subscribeFail with
        | some e => (st1, excResult e, subscribeFailEvents st1 user device, 0)
        | none =>
            let evs := subscribeEvents st1 user device subTopic
            let st2 := subscribeStep st1 user device
            -- lines 173-183: encode (external codec) and publish
            match env.publishFail with
            | some e => (st2, excResult e, evs, 0)
            | none =>
                let r := awaitStep st2 rid fr env.inbound
                (r.1, r.2.1, evs ++ [.publish pubTopic], r.2.2)
    | none => (st, .err notInitMsg, [], 0)
  else (st, .err notInitMsg, [], 0)

/-! ## Session Registry (lines 77-116) -/

/-- `_close_session` (lines 100-116): unsubscribe and drop the user's
device subscriptions, close and drop the transport session, drop the
credentials.  Each step is guarded by its own `in` check, so the whole
function is a no-op for an unknown user. -/
def closeSession (st : DaemonState) (user : String) : DaemonState × List Event :=
  ({ st with
      subscriptions :=
        match lookupK user st.subscriptions with
        | some _ => eraseK user st.subscriptions
        | none => st.subscriptions,
      sessions := if user ∈ st.sessions then st.sessions.filter (· ≠ user) else st.sessions,
      rriotData :=
        match lookupK user st.rriotData with
        | some _ => eraseK user st.rriotData
        | none => st.rriotData },
   (match lookupK user st.subscriptions with
    | some subs => subs.map fun p => Event.unsubscribe p.2
    | none => []) ++
   (if user ∈ st.sessions then [Event.closeTransport user] else []))

/-- `initialize` (lines 77-98): close any existing session for the user
first, then create the credentials, the MQTT parameters and the session
and `start()` it; any exception in that block (`connectFail`, carrying
`str(e)`) yields `{"success": False, "error": ...}` before the three maps
are written; on success all three maps are written. -/
def initSession (st : DaemonState) (user : String) (creds : Rriot)
    (connectFail : Option String) : DaemonState × InitResult × List Event :=
  let c := if user ∈ st.sessions then closeSession st user else (st, [])
  match connectFail with
  | some msg => (c.1, .err msg, c.2)
  | none =>
      ({ c.1 with
          sessions := user :: c.1.sessions,
          rriotData := insertK user creds c.1.rriotData,
          subscriptions := insertK user [] c.1.subscriptions },
       .ok, c.2 ++ [.connect user])

/-! ## The subscription block under asyncio interleaving

Lines 160-171 projected onto one `(user, device)` pair.  The block is two
atomic pieces separated by the `await session.subscribe(...)` suspension
point: first the synchronous membership check plus, in the replace branch,
the synchronous `old_unsub()` call (lines 162, 167-169); then, when the
`await` resumes, the freshly registered live handler's token is stored in
the map (lines 163-164 / 170-171).  `live` is the transport-side set of
currently registered inbound handlers for the device's topic; `entry` is
`self.subscriptions[user_id].get(device_id)`. -/

structure MuxState where
  entry : Option Nat
  live : List Nat
  nextTok : Nat
  deriving DecidableEq, Repr

/-- Synchronous prefix of the block: the membership check, and in the
replace branch the `old_unsub()` call, which removes the old handler from
the transport. -/
def muxCheck (m : MuxState) : MuxState :=
  match m.entry with
  | none => m
  | some tok => { m with live := m.live.erase tok }

/-- Resumption after `await session.subscribe(...)`: the new handler is
live at the transport and its token is stored, replacing the entry. -/
def muxStore (m : MuxState) : MuxState :=
  { entry := some m.nextTok, live := m.nextTok :: m.live, nextTok := m.nextTok + 1 }

/-- The whole block run without interleaving. -/
def ensureSubscription (m : MuxState) : MuxState := muxStore (muxCheck m)

/-- Program counter of one `send_command` task inside the block. -/
inductive SubPc where
  | ready
  | awaitingSub
  | finished
  deriving DecidableEq, Repr

/-- Two concurrent `send_command` calls for the same `(user, device)`
pair, each somewhere in the subscription block. -/
structure ConcState where
  mux : MuxState
  pcA : SubPc
  pcB : SubPc
  deriving DecidableEq, Repr

/-- One asyncio scheduling step: some ready task runs the next atomic
piece of its subscription block. -/
inductive MuxStep : ConcState → ConcState → Prop where
  | checkA (s : ConcState) (h : s.pcA = .ready) :
      MuxStep s ⟨muxCheck s.mux, .awaitingSub, s.pcB⟩
  | storeA (s : ConcState) (h : s.pcA = .awaitingSub) :
      MuxStep s ⟨muxStore s.mux, .finished, s.pcB⟩
  | checkB (s : ConcState) (h : s.pcB = .ready) :
      MuxStep s ⟨muxCheck s.mux, s.pcA, .awaitingSub⟩
  | storeB (s : ConcState) (h : s.pcB = .awaitingSub) :
      MuxStep s ⟨muxStore s.mux, s.pcA, .finished⟩

/-- Reachability under interleaved execution. -/
def MuxReach : ConcState → ConcState → Prop := Relation.ReflTransGen MuxStep

/-- Two fresh sends racing on a device with no prior subscription. -/
def muxRaceStart : ConcState := ⟨⟨none, [], 0⟩, .ready, .ready⟩

/-- End state of the interleaving check-A, check-B, store-A, store-B. -/
def muxRaceEnd : ConcState := ⟨⟨some 1, [1, 0], 2⟩, .finished, .finished⟩

/-! ## Request-identifier allocation over a whole run -/

/-- The request identifiers allocated by a run of `send_command` calls
(lines 137-138): each send increments the shared `request_counter` and
appends it to `"{user_id}:{device_id}:"`. -/
def runIds : List (String × String) → Nat → List String
  | [], _ => []
  | (u, d) :: rest, c => requestId u d (c + 1) :: runIds rest (c + 1)

/-- The counter values those sends consume. -/
def runCounters : List (String × String) → Nat → List Nat
  | [], _ => []
  | _ :: rest, c => (c + 1) :: runCounters rest (c + 1)

/-- Decimal value of a digit character. -/
def digitVal (c : Char) : Nat := c.toNat - '0'.toNat

/-- Decimal value of a digit string, folded left starting from `a`. -/
def decListVal (a : Nat) (l : List Char) : Nat :=
  l.foldl (fun acc c => 10 * acc + digitVal c) a

/-! ## The one-shot CLI bridge (`roborock_bridge.py`) -/

/-- The wait phase of `send_mqtt_request` (bridge lines 49-117): a single
un-keyed future, resolved by the bridge's `on_message` with the first
decoded `RPC_RESPONSE` (or failed with a decode exception), awaited with
the function's own `timeout` parameter (milliseconds here; the Python
default is `30.0` seconds and `get_device_status` passes `15.0`). -/
def bridgeProcessMsg (s : SlotState) (m : DecodedMsg) : SlotState :=
  match m with
  | .rpcResponse resp => if s = .waiting then .doneOk resp else s
  | .otherProtocol => s

/-- The bridge's `on_message` (bridge lines 67-79). -/
def bridgeOnMessage (ev : ParseEvent) (s : SlotState) : SlotState :=
  match ev with
  | .ok msgs => msgs.foldl bridgeProcessMsg s
  | .fail msgs e =>
      let s1 := msgs.foldl bridgeProcessMsg s
      if s1 = .waiting then .doneExc e else s1

/-- `await asyncio.wait_for(response_future, timeout=timeout)` and the
result classification (bridge lines 101-117). -/
def bridgeSend (timeout : Nat) (inbound : Option (Nat × ParseEvent)) : SendResult × Nat :=
  let slot := match inbound with
    | some (t, ev) => if t < timeout then bridgeOnMessage ev .waiting else .waiting
    | none => SlotState.waiting
  let tArr : Nat := match inbound with
    | some (t, _) => if t < timeout then t else timeout
    | none => timeout
  match slot with
  | .doneOk resp =>
      ((match resp.apiError with
        | some msg => .err msg
        | none => .ok resp.payload),
       tArr)
  | .doneExc e => (excResult e, tArr)
  | _ => (.err "Command timeout", timeout)

/-! ## Decimal representation facts

The request id embeds the counter as the decimal digits after the last
colon, so equal id strings force equal counters.  These lemmas pin down
the two facts needed: decimal digits are never `':'`, and `Nat.repr` is
injective (via an explicit decimal decoder). -/

theorem digitChar_ne_colon {m : Nat} (h : m < 10) : Nat.digitChar m ≠ ':' := by
  interval_cases m <;> decide

theorem digitVal_digitChar {m : Nat} (h : m < 10) : digitVal (Nat.digitChar m) = m := by
  interval_cases m <;> decide

theorem toDigitsCore_ne_colon :
    ∀ (fuel n : Nat) (ds : List Char), (∀ c ∈ ds, c ≠ ':') →
      ∀ c ∈ Nat.toDigitsCore 10 fuel n ds, c ≠ ':' := by
  intro fuel
  induction fuel with
  | zero => intro n ds h c hc; exact h c hc
  | succ f ih =>
      intro n ds h c hc
      have hd : ∀ c ∈ (Nat.digitChar (n % 10) :: ds), c ≠ ':' := by
        intro c hc'
        rcases List.mem_cons.mp hc' with h1 | h1
        · subst h1; exact digitChar_ne_colon (Nat.mod_lt _ (by norm_num))
        · exact h c h1
      unfold Nat.toDigitsCore at hc
      by_cases h0 : n / 10 = 0
      · rw [if_pos h0] at hc
        exact hd c hc
      · rw [if_neg h0] at hc
        exact ih (n / 10) _ hd c hc

theorem repr_ne_colon (n : Nat) : ∀ c ∈ (Nat.repr n).data, c ≠ ':' := by
  intro c hc
  have : (Nat.repr n).data = Nat.toDigits 10 n := rfl
  rw [this] at hc
  exact toDigitsCore_ne_colon (n + 1) n [] (by simp) c hc

theorem decListVal_toDigitsCore :
    ∀ (fuel n : Nat) (ds : List Char), n < 10 ^ fuel →
      decListVal 0 (Nat.toDigitsCore 10 fuel n ds) = decListVal n ds := by
  intro fuel
  induction fuel with
  | zero =>
      intro n ds h
      have hn : n = 0 := by omega
      subst hn; rfl
  | succ f ih =>
      intro n ds h
      have hm : n % 10 < 10 := Nat.mod_lt _ (by norm_num)
      unfold Nat.toDigitsCore
      by_cases h0 : n / 10 = 0
      · rw [if_pos h0]
        have hn : n < 10 := by omega
        have h1 : n % 10 = n := Nat.mod_eq_of_lt hn
        simp [decListVal, h1, digitVal_digitChar hn]
      · rw [if_neg h0]
        have hdiv : n / 10 < 10 ^ f := by
          rw [Nat.div_lt_iff_lt_mul (by norm_num : (0:Nat) < 10)]
          rw [Nat.pow_succ] at h
          exact h
        rw [ih (n / 10) _ hdiv]
        have : 10 * (n / 10) + digitVal (Nat.digitChar (n % 10)) = n := by
          rw [digitVal_digitChar hm]
          omega
        simp [decListVal, this]

theorem decListVal_repr (n : Nat) : decListVal 0 (Nat.repr n).data = n := by
  have h1 : (Nat.repr n).data = Nat.toDigitsCore 10 (n + 1) n [] := rfl
  have h2 : n < 10 ^ (n + 1) := by
    calc n < 10 ^ n := Nat.lt_pow_self (by norm_num) n
    _ ≤ 10 ^ (n + 1) := Nat.pow_le_pow_right (by norm_num) (Nat.le_succ n)
  rw [h1, decListVal_toDigitsCore (n + 1) n [] h2]
  rfl

theorem natRepr_injective {m n : Nat} (h : Nat.repr m = Nat.repr n) : m = n := by
  have := congrArg (fun s => decListVal 0 (String.data s)) h
  simpa [decListVal_repr] using this

theorem takeWhile_append_colon :
    ∀ (r rest : List Char), (∀ c ∈ r, c ≠ ':') →
      (r ++ ':' :: rest).takeWhile (fun c => c ≠ ':') = r := by
  intro r
  induction r with
  | nil => intro rest h; simp [List.takeWhile]
  | cons c t ih =>
      intro rest h
      have hc : c ≠ ':' := h c (List.mem_cons_self c t)
      have ht : ∀ c ∈ t, c ≠ ':' := fun c hc' => h c (List.mem_cons_of_mem _ hc')
      have hdec : (decide (c ≠ ':')) = true := decide_eq_true hc
      simp only [List.cons_append, List.takeWhile, hdec, List.append_eq]
      exact congrArg (c :: ·) (ih rest ht)

theorem requestId_data (u d : String) (n : Nat) :
    (requestId u d n).data =
      (((u.data ++ [':']) ++ d.data) ++ [':']) ++ (Nat.repr n).data := by
  simp [requestId, String.data_append]

theorem requestIdCtrInj {u1 d1 u2 d2 : String} {m n : Nat}
    (h : requestId u1 d1 m = requestId u2 d2 n) : m = n := by
  have hdata := congrArg String.data h
  rw [requestId_data, requestId_data] at hdata
  have hrev := congrArg List.reverse hdata
  rw [List.reverse_append, List.reverse_append] at hrev
  simp only [List.reverse_append, List.reverse_cons, List.reverse_nil, List.nil_append,
    List.cons_append, List.append_assoc] at hrev
  -- both sides now read: repr.reverse ++ ':' :: (rest)
  have h1 : ∀ c ∈ (Nat.repr m).data.reverse, c ≠ ':' := by
    intro c hc; exact repr_ne_colon m c (List.mem_reverse.mp hc)
  have h2 : ∀ c ∈ (Nat.repr n).data.reverse, c ≠ ':' := by
    intro c hc; exact repr_ne_colon n c (List.mem_reverse.mp hc)
  have htw := congrArg (List.takeWhile (fun c => c ≠ ':')) hrev
  rw [takeWhile_append_colon _ _ h1, takeWhile_append_colon _ _ h2] at htw
  have hdig : (Nat.repr m).data = (Nat.repr n).data := by
    have := congrArg List.reverse htw
    simpa using this
  exact natRepr_injective (String.ext hdig)

/-! ## Claim theorems -/

/-- Claim C1: for every pending request, the completion slot is resolved at
most once and the pending-table entry is removed exactly once, by whichever
of the inbound-handler path and the timeout path observes it present
first; the losing path is a no-op, and neither path resolves an
already-removed or already-done slot. -/
theorem C1_pending_exactly_once
    (st stGone stDone : DaemonState) (rid : String) (fr : Nat) (resp : RpcResponse)
    (d : SlotState)
    (hp : lookupK rid st.pendingResponses = some fr)
    (hw : lookupK fr st.futures = some .waiting)
    (hgone : lookupK rid stGone.pendingResponses = none)
    (hdone : lookupK fr stDone.futures = some d) (hd : d ≠ .waiting) :
    -- the inbound path, observing the entry present: pops it, resolves the slot
    (lookupK rid (processMsg rid st (.rpcResponse resp)).pendingResponses = none ∧
     lookupK fr (processMsg rid st (.rpcResponse resp)).futures = some (.doneOk resp)) ∧
    -- the timeout path, observing the entry present: pops it; the slot ends
    -- cancelled by wait_for, not resolved with a result
    (lookupK rid (timeoutPathStep rid fr st).pendingResponses = none ∧
     lookupK fr (timeoutPathStep rid fr st).futures = some .cancelled) ∧
    -- losing inbound path: entry already removed, the handler does nothing
    processMsg rid stGone (.rpcResponse resp) = stGone ∧
    -- losing timeout path: pop(request_id, None) of an absent key is a no-op
    (timeoutPathStep rid fr stGone).pendingResponses = stGone.pendingResponses ∧
    -- an already-done slot is never resolved again by either path
    lookupK fr (processMsg rid stDone (.rpcResponse resp)).futures = some d ∧
    lookupK fr (timeoutPathStep rid fr stDone).futures = some d := by
  refine ⟨⟨?_, ?_⟩, ⟨?_, ?_⟩, ?_, ?_, ?_, ?_⟩
  · simp [processMsg, hp, setResultOk, updateFut, lookupK_eraseK_self]
  · simp [processMsg, hp, setResultOk, updateFut, lookupK_updateK_self, hw]
  · simp [timeoutPathStep, cancelFut, updateFut, lookupK_eraseK_self]
  · simp [timeoutPathStep, cancelFut, updateFut, lookupK_updateK_self, hw]
  · simp [processMsg, hgone]
  · simp only [timeoutPathStep, cancelFut, updateFut]
    exact eraseK_eq_self_of_lookupK_none _ _ hgone
  · match hl : lookupK rid stDone.pendingResponses with
    | none => simp [processMsg, hl, hdone]
    | some fr' =>
        by_cases hfr : fr' = fr
        · subst hfr
          simp [processMsg, hl, setResultOk, updateFut, lookupK_updateK_self, hdone,
            if_neg hd]
        · have hne : fr ≠ fr' := fun hk => hfr hk.symm
          simp [processMsg, hl, setResultOk, updateFut, lookupK_updateK_ne _ _ _ _ hne,
            hdone]
  · simp [timeoutPathStep, cancelFut, updateFut, lookupK_updateK_self, hdone, if_neg hd]

/-- Witness for C1 at a concrete state: one pending request `"u1:d1:1"`
with future reference 0. -/
theorem C1_pending_exactly_once_witness :
    (lookupK "u1:d1:1"
        (DaemonState.pendingResponses ⟨[], [], [], [("u1:d1:1", 0)], [(0, .waiting)], 1, 0, 1⟩) =
      some 0) ∧
    (lookupK 0 (DaemonState.futures ⟨[], [], [], [("u1:d1:1", 0)], [(0, .waiting)], 1, 0, 1⟩) =
      some .waiting) ∧
    (lookupK "u1:d1:1"
        (DaemonState.pendingResponses ⟨[], [], [], [], [(0, .waiting)], 1, 0, 1⟩) = none) ∧
    (lookupK 0
        (DaemonState.futures ⟨[], [], [], [("u1:d1:1", 0)], [(0, .doneOk ⟨none, "ok"⟩)], 1, 0, 1⟩) =
      some (.doneOk ⟨none, "ok"⟩)) ∧
    ((lookupK "u1:d1:1"
        (processMsg "u1:d1:1" ⟨[], [], [], [("u1:d1:1", 0)], [(0, .waiting)], 1, 0, 1⟩
          (.rpcResponse ⟨none, "ok"⟩)).pendingResponses = none ∧
      lookupK 0
        (processMsg "u1:d1:1" ⟨[], [], [], [("u1:d1:1", 0)], [(0, .waiting)], 1, 0, 1⟩
          (.rpcResponse ⟨none, "ok"⟩)).futures = some (.doneOk ⟨none, "ok"⟩)) ∧
     (lookupK "u1:d1:1"
        (timeoutPathStep "u1:d1:1" 0
          ⟨[], [], [], [("u1:d1:1", 0)], [(0, .waiting)], 1, 0, 1⟩).pendingResponses = none ∧
      lookupK 0
        (timeoutPathStep "u1:d1:1" 0
          ⟨[], [], [], [("u1:d1:1", 0)], [(0, .waiting)], 1, 0, 1⟩).futures = some .cancelled) ∧
     processMsg "u1:d1:1" ⟨[], [], [], [], [(0, .waiting)], 1, 0, 1⟩
        (.rpcResponse ⟨none, "ok"⟩) = ⟨[], [], [], [], [(0, .waiting)], 1, 0, 1⟩ ∧
     (timeoutPathStep "u1:d1:1" 0
        ⟨[], [], [], [], [(0, .waiting)], 1, 0, 1⟩).pendingResponses =
       DaemonState.pendingResponses ⟨[], [], [], [], [(0, .waiting)], 1, 0, 1⟩ ∧
     lookupK 0
        (processMsg "u1:d1:1"
          ⟨[], [], [], [("u1:d1:1", 0)], [(0, .doneOk ⟨none, "ok"⟩)], 1, 0, 1⟩
          (.rpcResponse ⟨none, "ok"⟩)).futures = some (.doneOk ⟨none, "ok"⟩) ∧
     lookupK 0
        (timeoutPathStep "u1:d1:1" 0
          ⟨[], [], [], [("u1:d1:1", 0)], [(0, .doneOk ⟨none, "ok"⟩)], 1, 0, 1⟩).futures =
       some (.doneOk ⟨none, "ok"⟩)) :=
  ⟨by decide, by decide, by decide, by decide,
   C1_pending_exactly_once
     ⟨[], [], [], [("u1:d1:1", 0)], [(0, .waiting)], 1, 0, 1⟩
     ⟨[], [], [], [], [(0, .waiting)], 1, 0, 1⟩
     ⟨[], [], [], [("u1:d1:1", 0)], [(0, .doneOk ⟨none, "ok"⟩)], 1, 0, 1⟩
     "u1:d1:1" 0 ⟨none, "ok"⟩ (.doneOk ⟨none, "ok"⟩)
     (by decide) (by decide) (by decide) (by decide) (by decide)⟩

/-- `_close_session` for an unknown user leaves the state untouched and
makes no transport calls: every one of its three blocks is guarded by its
own membership check. -/
theorem closeSession_noop (st : DaemonState) (user : String)
    (h1 : user ∉ st.sessions) (h2 : lookupK user st.subscriptions = none)
    (h3 : lookupK user st.rriotData = none) : closeSession st user = (st, []) := by
  simp [closeSession, h1, h2, h3]

/-- After `_close_session`, the user is gone from all three maps. -/
theorem closeSession_removes (st : DaemonState) (user : String) :
    user ∉ (closeSession st user).1.sessions ∧
    lookupK user (closeSession st user).1.subscriptions = none ∧
    lookupK user (closeSession st user).1.rriotData = none := by
  refine ⟨?_, ?_, ?_⟩
  · by_cases h : user ∈ st.sessions
    · simp [closeSession, h, List.mem_filter]
    · simp [closeSession, h]
  · match h : lookupK user st.subscriptions with
    | some subs => simp [closeSession, h, lookupK_eraseK_self]
    | none => simp [closeSession, h]
  · match h : lookupK user st.rriotData with
    | some rr => simp [closeSession, h, lookupK_eraseK_self]
    | none => simp [closeSession, h]

/-- Claim C8: `close(user_id)` unsubscribes every device subscription the
session owns, closes the transport, and removes the session from all three
maps; with no session it is a no-op, so a second close in a row returns
the unchanged state and makes no transport calls. -/
theorem C8_close_session_idempotent (st : DaemonState) (user : String) :
    -- one unsubscribe per owned subscription, then the transport close
    (closeSession st user).2 =
      ((lookupK user st.subscriptions).getD []).map (fun p => Event.unsubscribe p.2) ++
      (if user ∈ st.sessions then [Event.closeTransport user] else []) ∧
    -- the session is removed from the session, credential and subscription maps
    user ∉ (closeSession st user).1.sessions ∧
    lookupK user (closeSession st user).1.subscriptions = none ∧
    lookupK user (closeSession st user).1.rriotData = none ∧
    -- a user with no session: full no-op
    (∀ s : DaemonState, user ∉ s.sessions → lookupK user s.subscriptions = none →
       lookupK user s.rriotData = none → closeSession s user = (s, [])) ∧
    -- hence the second of two closes in a row has no observable effect
    closeSession (closeSession st user).1 user = ((closeSession st user).1, []) := by
  obtain ⟨hs, hsub, hrr⟩ := closeSession_removes st user
  refine ⟨?_, hs, hsub, hrr, fun s a b c => closeSession_noop s user a b c, ?_⟩
  · match h : lookupK user st.subscriptions with
    | some subs => simp [closeSession, h]
    | none => simp [closeSession, h]
  · exact closeSession_noop _ user hs hsub hrr

/-- Witness for C8 at a concrete session owning one device subscription. -/
theorem C8_close_session_idempotent_witness :
    (closeSession ⟨["u1"], [("u1", ⟨"r", "mq"⟩)], [("u1", [("d1", 5)])], [], [], 0, 0, 0⟩
        "u1").2 =
      ((lookupK "u1"
          (DaemonState.subscriptions
            ⟨["u1"], [("u1", ⟨"r", "mq"⟩)], [("u1", [("d1", 5)])], [], [], 0, 0, 0⟩)).getD
          []).map (fun p => Event.unsubscribe p.2) ++
      (if "u1" ∈ DaemonState.sessions
            ⟨["u1"], [("u1", ⟨"r", "mq"⟩)], [("u1", [("d1", 5)])], [], [], 0, 0, 0⟩ then
        [Event.closeTransport "u1"]
      else []) ∧
    "u1" ∉ (closeSession ⟨["u1"], [("u1", ⟨"r", "mq"⟩)], [("u1", [("d1", 5)])], [], [], 0, 0, 0⟩
        "u1").1.sessions ∧
    lookupK "u1" (closeSession
        ⟨["u1"], [("u1", ⟨"r", "mq"⟩)], [("u1", [("d1", 5)])], [], [], 0, 0, 0⟩
        "u1").1.subscriptions = none ∧
    lookupK "u1" (closeSession
        ⟨["u1"], [("u1", ⟨"r", "mq"⟩)], [("u1", [("d1", 5)])], [], [], 0, 0, 0⟩
        "u1").1.rriotData = none ∧
    (∀ s : DaemonState, "u1" ∉ s.sessions → lookupK "u1" s.subscriptions = none →
       lookupK "u1" s.rriotData = none → closeSession s "u1" = (s, [])) ∧
    closeSession (closeSession
        ⟨["u1"], [("u1", ⟨"r", "mq"⟩)], [("u1", [("d1", 5)])], [], [], 0, 0, 0⟩ "u1").1 "u1" =
      ((closeSession
        ⟨["u1"], [("u1", ⟨"r", "mq"⟩)], [("u1", [("d1", 5)])], [], [], 0, 0, 0⟩ "u1").1, []) :=
  C8_close_session_idempotent
    ⟨["u1"], [("u1", ⟨"r", "mq"⟩)], [("u1", [("d1", 5)])], [], [], 0, 0, 0⟩ "u1"

/-- Claim C6: for a user with no registered session (in particular after
`close(user_id)`), `send_command` returns the typed not-initialized
failure, leaves the state untouched (so no request id is allocated), and
makes no transport call whatsoever. -/
theorem C6_send_without_session (st : DaemonState) (user device localKey command : String)
    (env : SendEnv)
    (h : user ∉ st.sessions ∨ lookupK user st.rriotData = none) :
    sendCommand st user device localKey command env =
      (st, .err "Session not initialized. Call /init first.", [], 0) := by
  rcases h with h | h
  · simp [sendCommand, h, notInitMsg]
  · by_cases hm : user ∈ st.sessions
    · simp [sendCommand, hm, h, notInitMsg]
    · simp [sendCommand, hm, notInitMsg]

/-- Witness for C6: a send in the state left by closing the only session. -/
theorem C6_send_without_session_witness :
    ("u1" ∉ DaemonState.sessions
        ((closeSession ⟨["u1"], [("u1", ⟨"r", "mq"⟩)], [("u1", [])], [], [], 0, 0, 0⟩ "u1").1) ∨
     lookupK "u1" ((closeSession
        ⟨["u1"], [("u1", ⟨"r", "mq"⟩)], [("u1", [])], [], [], 0, 0, 0⟩ "u1").1).rriotData =
       none) ∧
    sendCommand
        ((closeSession ⟨["u1"], [("u1", ⟨"r", "mq"⟩)], [("u1", [])], [], [], 0, 0, 0⟩ "u1").1)
        "u1" "d1" "key" "app_start" ⟨none, none, none⟩ =
      ((closeSession ⟨["u1"], [("u1", ⟨"r", "mq"⟩)], [("u1", [])], [], [], 0, 0, 0⟩ "u1").1,
       .err "Session not initialized. Call /init first.", [], 0) :=
  ⟨Or.inl (by decide),
   C6_send_without_session _ "u1" "d1" "key" "app_start" ⟨none, none, none⟩
     (Or.inl (by decide))⟩

/-- Claim C5: `initialize(user_id, credentials)` first tears down any
existing session for the user (its transport calls come first), then opens
the new connection; on success the new session is stored in all three
maps, and on any failure it returns the error and leaves the user
registered in none of the session, credential, or subscription maps.  The
two hypotheses are the daemon's reachable-state invariant that credential
and subscription entries only exist alongside a session entry. -/
theorem C5_init_replaces_or_clean_fails (st : DaemonState) (user : String) (creds : Rriot)
    (inv1 : lookupK user st.subscriptions ≠ none → user ∈ st.sessions)
    (inv2 : lookupK user st.rriotData ≠ none → user ∈ st.sessions) :
    -- an existing session is torn down first: the close's transport calls
    -- precede everything else the call does
    (∀ cf : Option String, user ∈ st.sessions →
       (initSession st user creds cf).2.2 =
         (closeSession st user).2 ++
           (match cf with | some _ => [] | none => [Event.connect user])) ∧
    -- failure: descriptive error, and no partial session in any map
    (∀ msg : String,
       (initSession st user creds (some msg)).2.1 = .err msg ∧
       user ∉ (initSession st user creds (some msg)).1.sessions ∧
       lookupK user (initSession st user creds (some msg)).1.rriotData = none ∧
       lookupK user (initSession st user creds (some msg)).1.subscriptions = none) ∧
    -- success: the new session is stored in all three maps
    ((initSession st user creds none).2.1 = .ok ∧
     user ∈ (initSession st user creds none).1.sessions ∧
     lookupK user (initSession st user creds none).1.rriotData = some creds ∧
     lookupK user (initSession st user creds none).1.subscriptions = some []) := by
  refine ⟨?_, ?_, ?_⟩
  · intro cf hmem
    match cf with
    | some msg => simp [initSession, hmem]
    | none => simp [initSession, hmem]
  · intro msg
    by_cases hmem : user ∈ st.sessions
    · obtain ⟨hs, hsub, hrr⟩ := closeSession_removes st user
      exact ⟨by simp [initSession], by simp [initSession, hmem]; exact hs,
        by simp [initSession, hmem]; exact hrr, by simp [initSession, hmem]; exact hsub⟩
    · have hrr : lookupK user st.rriotData = none := not_ne_iff.mp fun h => hmem (inv2 h)
      have hsub : lookupK user st.subscriptions = none := not_ne_iff.mp fun h => hmem (inv1 h)
      exact ⟨by simp [initSession], by simp [initSession, hmem],
        by simp [initSession, hmem]; exact hrr, by simp [initSession, hmem]; exact hsub⟩
  · refine ⟨by simp [initSession], ?_, ?_, ?_⟩
    · by_cases hmem : user ∈ st.sessions <;>
        simp [initSession, hmem, List.mem_cons]
    · by_cases hmem : user ∈ st.sessions <;> simp [initSession, hmem]
    · by_cases hmem : user ∈ st.sessions <;> simp [initSession, hmem]

/-- Witness for C5: initializing a fresh user in the empty daemon state. -/
theorem C5_init_replaces_or_clean_fails_witness :
    (lookupK "u1"
        (DaemonState.subscriptions ⟨[], [], [], [], [], 0, 0, 0⟩) ≠ none →
       "u1" ∈ DaemonState.sessions ⟨[], [], [], [], [], 0, 0, 0⟩) ∧
    (lookupK "u1" (DaemonState.rriotData ⟨[], [], [], [], [], 0, 0, 0⟩) ≠ none →
       "u1" ∈ DaemonState.sessions ⟨[], [], [], [], [], 0, 0, 0⟩) ∧
    ((∀ cf : Option String, "u1" ∈ DaemonState.sessions ⟨[], [], [], [], [], 0, 0, 0⟩ →
       (initSession ⟨[], [], [], [], [], 0, 0, 0⟩ "u1" ⟨"r", "mq"⟩ cf).2.2 =
         (closeSession ⟨[], [], [], [], [], 0, 0, 0⟩ "u1").2 ++
           (match cf with | some _ => [] | none => [Event.connect "u1"])) ∧
    (∀ msg : String,
       (initSession ⟨[], [], [], [], [], 0, 0, 0⟩ "u1" ⟨"r", "mq"⟩ (some msg)).2.1 =
         .err msg ∧
       "u1" ∉ (initSession ⟨[], [], [], [], [], 0, 0, 0⟩ "u1" ⟨"r", "mq"⟩
           (some msg)).1.sessions ∧
       lookupK "u1" (initSession ⟨[], [], [], [], [], 0, 0, 0⟩ "u1" ⟨"r", "mq"⟩
           (some msg)).1.rriotData = none ∧
       lookupK "u1" (initSession ⟨[], [], [], [], [], 0, 0, 0⟩ "u1" ⟨"r", "mq"⟩
           (some msg)).1.subscriptions = none) ∧
    ((initSession ⟨[], [], [], [], [], 0, 0, 0⟩ "u1" ⟨"r", "mq"⟩ none).2.1 = .ok ∧
     "u1" ∈ (initSession ⟨[], [], [], [], [], 0, 0, 0⟩ "u1" ⟨"r", "mq"⟩ none).1.sessions ∧
     lookupK "u1" (initSession ⟨[], [], [], [], [], 0, 0, 0⟩ "u1" ⟨"r", "mq"⟩
         none).1.rriotData = some ⟨"r", "mq"⟩ ∧
     lookupK "u1" (initSession ⟨[], [], [], [], [], 0, 0, 0⟩ "u1" ⟨"r", "mq"⟩
         none).1.subscriptions = some [])) :=
  ⟨by decide, by decide,
   C5_init_replaces_or_clean_fails ⟨[], [], [], [], [], 0, 0, 0⟩ "u1" ⟨"r", "mq"⟩
     (by decide) (by decide)⟩

/-- Claim C2: a send whose completion slot is not resolved before the
timeout expires returns the Timeout failure and leaves no residual
pending-table entry for its request identifier; a send whose slot the
inbound path resolved before expiry returns the inbound path's result
(device-reported error or success payload). -/
theorem C2_timeout_and_inbound_result (st : DaemonState)
    (user device localKey command : String) (rr : Rriot)
    (hs : user ∈ st.sessions) (hr : lookupK user st.rriotData = some rr) :
    -- no inbound delivery at all: Timeout, entry removed
    (∀ env : SendEnv, env.subscribeFail = none → env.publishFail = none →
       env.inbound = none →
       (sendCommand st user device localKey command env).2.1 = .err "Command timeout" ∧
       lookupK (requestId user device (st.requestCounter + 1))
         (sendCommand st user device localKey command env).1.pendingResponses = none) ∧
    -- an inbound payload with no reply message leaves the slot unresolved:
    -- still Timeout, entry removed
    (∀ t : Nat, t < commandTimeout →
       (sendCommand st user device localKey command
           ⟨none, none, some (t, .ok [.otherProtocol])⟩).2.1 = .err "Command timeout" ∧
       lookupK (requestId user device (st.requestCounter + 1))
         (sendCommand st user device localKey command
           ⟨none, none, some (t, .ok [.otherProtocol])⟩).1.pendingResponses = none) ∧
    -- an inbound payload arriving only at or after the deadline is too
    -- late: Timeout, entry removed, never an early timeout
    (∀ (t : Nat) (ev : ParseEvent), ¬ t < commandTimeout →
       (sendCommand st user device localKey command
           ⟨none, none, some (t, ev)⟩).2.1 = .err "Command timeout" ∧
       lookupK (requestId user device (st.requestCounter + 1))
         (sendCommand st user device localKey command
           ⟨none, none, some (t, ev)⟩).1.pendingResponses = none) ∧
    -- inbound reply decoded before the deadline: the inbound result, and
    -- the inbound path already removed the entry
    (∀ (t : Nat) (resp : RpcResponse), t < commandTimeout →
       (sendCommand st user device localKey command
           ⟨none, none, some (t, .ok [.rpcResponse resp])⟩).2.1 =
         (match resp.apiError with
          | some msg => SendResult.err msg
          | none => SendResult.ok resp.payload) ∧
       lookupK (requestId user device (st.requestCounter + 1))
         (sendCommand st user device localKey command
           ⟨none, none, some (t, .ok [.rpcResponse resp])⟩).1.pendingResponses = none) := by
  refine ⟨?_, ?_, ?_, ?_⟩
  · rintro ⟨sf, pf, inb⟩ h1 h2 h3
    simp only at h1 h2 h3
    subst h1; subst h2; subst h3
    constructor <;>
      simp [sendCommand, hs, hr, awaitStep, subscribeStep, timeoutPathStep, cancelFut,
        updateFut, lookupK_insertK_self, lookupK_eraseK_self]
  · intro t ht
    constructor <;>
      simp [sendCommand, hs, hr, awaitStep, ht, onMessage, processMsg, subscribeStep,
        timeoutPathStep, cancelFut, updateFut, lookupK_insertK_self,
        lookupK_eraseK_self]
  · intro t ev ht
    constructor <;>
      simp [sendCommand, hs, hr, awaitStep, ht, subscribeStep, timeoutPathStep,
        cancelFut, updateFut, lookupK_insertK_self, lookupK_eraseK_self]
  · intro t resp ht
    constructor <;>
      simp [sendCommand, hs, hr, awaitStep, ht, onMessage, processMsg, subscribeStep,
        setResultOk, updateFut, lookupK_insertK_self, lookupK_updateK_self,
        lookupK_eraseK_self]

/-- Witness for C2: a session for `"u1"` in an otherwise fresh state. -/
theorem C2_timeout_and_inbound_result_witness :
    "u1" ∈ DaemonState.sessions
        ⟨["u1"], [("u1", ⟨"r", "mq"⟩)], [("u1", [])], [], [], 0, 0, 0⟩ ∧
    lookupK "u1" (DaemonState.rriotData
        ⟨["u1"], [("u1", ⟨"r", "mq"⟩)], [("u1", [])], [], [], 0, 0, 0⟩) =
      some ⟨"r", "mq"⟩ ∧
    ((∀ env : SendEnv, env.subscribeFail = none → env.publishFail = none →
       env.inbound = none →
       (sendCommand ⟨["u1"], [("u1", ⟨"r", "mq"⟩)], [("u1", [])], [], [], 0, 0, 0⟩
           "u1" "d1" "key" "app_start" env).2.1 = .err "Command timeout" ∧
       lookupK (requestId "u1" "d1" (DaemonState.requestCounter
           ⟨["u1"], [("u1", ⟨"r", "mq"⟩)], [("u1", [])], [], [], 0, 0, 0⟩ + 1))
         (sendCommand ⟨["u1"], [("u1", ⟨"r", "mq"⟩)], [("u1", [])], [], [], 0, 0, 0⟩
           "u1" "d1" "key" "app_start" env).1.pendingResponses = none) ∧
    (∀ t : Nat, t < commandTimeout →
       (sendCommand ⟨["u1"], [("u1", ⟨"r", "mq"⟩)], [("u1", [])], [], [], 0, 0, 0⟩
           "u1" "d1" "key" "app_start"
           ⟨none, none, some (t, .ok [.otherProtocol])⟩).2.1 = .err "Command timeout" ∧
       lookupK (requestId "u1" "d1" (DaemonState.requestCounter
           ⟨["u1"], [("u1", ⟨"r", "mq"⟩)], [("u1", [])], [], [], 0, 0, 0⟩ + 1))
         (sendCommand ⟨["u1"], [("u1", ⟨"r", "mq"⟩)], [("u1", [])], [], [], 0, 0, 0⟩
           "u1" "d1" "key" "app_start"
           ⟨none, none, some (t, .ok [.otherProtocol])⟩).1.pendingResponses = none) ∧
    (∀ (t : Nat) (ev : ParseEvent), ¬ t < commandTimeout →
       (sendCommand ⟨["u1"], [("u1", ⟨"r", "mq"⟩)], [("u1", [])], [], [], 0, 0, 0⟩
           "u1" "d1" "key" "app_start"
           ⟨none, none, some (t, ev)⟩).2.1 = .err "Command timeout" ∧
       lookupK (requestId "u1" "d1" (DaemonState.requestCounter
           ⟨["u1"], [("u1", ⟨"r", "mq"⟩)], [("u1", [])], [], [], 0, 0, 0⟩ + 1))
         (sendCommand ⟨["u1"], [("u1", ⟨"r", "mq"⟩)], [("u1", [])], [], [], 0, 0, 0⟩
           "u1" "d1" "key" "app_start"
           ⟨none, none, some (t, ev)⟩).1.pendingResponses = none) ∧
    (∀ (t : Nat) (resp : RpcResponse), t < commandTimeout →
       (sendCommand ⟨["u1"], [("u1", ⟨"r", "mq"⟩)], [("u1", [])], [], [], 0, 0, 0⟩
           "u1" "d1" "key" "app_start"
           ⟨none, none, some (t, .ok [.rpcResponse resp])⟩).2.1 =
         (match resp.apiError with
          | some msg => SendResult.err msg
          | none => SendResult.ok resp.payload) ∧
       lookupK (requestId "u1" "d1" (DaemonState.requestCounter
           ⟨["u1"], [("u1", ⟨"r", "mq"⟩)], [("u1", [])], [], [], 0, 0, 0⟩ + 1))
         (sendCommand ⟨["u1"], [("u1", ⟨"r", "mq"⟩)], [("u1", [])], [], [], 0, 0, 0⟩
           "u1" "d1" "key" "app_start"
           ⟨none, none, some (t, .ok [.rpcResponse resp])⟩).1.pendingResponses = none)) :=
  ⟨by decide, by decide,
   C2_timeout_and_inbound_result
     ⟨["u1"], [("u1", ⟨"r", "mq"⟩)], [("u1", [])], [], [], 0, 0, 0⟩
     "u1" "d1" "key" "app_start" ⟨"r", "mq"⟩ (by decide) (by decide)⟩

/-- Claim C10: an inbound payload that fails to decode while the request
is still pending makes the handler remove the pending entry and fail the
completion slot with the decode exception, so the send fails instead of
discarding the malformed payload; when the exception is not a
`RoborockException` the returned error is the "Unexpected error" one. -/
theorem C10_decode_failure_fails_request (st : DaemonState)
    (user device localKey command : String) (rr : Rriot) (t : Nat) (e : Exc)
    (hs : user ∈ st.sessions) (hr : lookupK user st.rriotData = some rr)
    (ht : t < commandTimeout) (he : e.isRoborock = false) :
    (sendCommand st user device localKey command
        ⟨none, none, some (t, .fail [] e)⟩).2.1 =
      .err ("Unexpected error: " ++ e.msg) ∧
    lookupK (requestId user device (st.requestCounter + 1))
      (sendCommand st user device localKey command
        ⟨none, none, some (t, .fail [] e)⟩).1.pendingResponses = none ∧
    lookupK st.nextFuture
      (sendCommand st user device localKey command
        ⟨none, none, some (t, .fail [] e)⟩).1.futures = some (.doneExc e) := by
  refine ⟨?_, ?_, ?_⟩ <;>
    simp [sendCommand, hs, hr, awaitStep, ht, onMessage, subscribeStep, setResultExc,
      excResult, he, updateFut, lookupK_insertK_self, lookupK_updateK_self,
      lookupK_eraseK_self]

/-- Witness for C10: a malformed payload arriving 50 ms into the wait. -/
theorem C10_decode_failure_fails_request_witness :
    "u1" ∈ DaemonState.sessions
        ⟨["u1"], [("u1", ⟨"r", "mq"⟩)], [("u1", [])], [], [], 0, 0, 0⟩ ∧
    lookupK "u1" (DaemonState.rriotData
        ⟨["u1"], [("u1", ⟨"r", "mq"⟩)], [("u1", [])], [], [], 0, 0, 0⟩) =
      some ⟨"r", "mq"⟩ ∧
    50 < commandTimeout ∧
    Exc.isRoborock ⟨false, "bad checksum"⟩ = false ∧
    ((sendCommand ⟨["u1"], [("u1", ⟨"r", "mq"⟩)], [("u1", [])], [], [], 0, 0, 0⟩
        "u1" "d1" "key" "app_start"
        ⟨none, none, some (50, .fail [] ⟨false, "bad checksum"⟩)⟩).2.1 =
      .err ("Unexpected error: " ++ Exc.msg ⟨false, "bad checksum"⟩) ∧
    lookupK (requestId "u1" "d1" (DaemonState.requestCounter
        ⟨["u1"], [("u1", ⟨"r", "mq"⟩)], [("u1", [])], [], [], 0, 0, 0⟩ + 1))
      (sendCommand ⟨["u1"], [("u1", ⟨"r", "mq"⟩)], [("u1", [])], [], [], 0, 0, 0⟩
        "u1" "d1" "key" "app_start"
        ⟨none, none, some (50, .fail [] ⟨false, "bad checksum"⟩)⟩).1.pendingResponses =
      none ∧
    lookupK (DaemonState.nextFuture
        ⟨["u1"], [("u1", ⟨"r", "mq"⟩)], [("u1", [])], [], [], 0, 0, 0⟩)
      (sendCommand ⟨["u1"], [("u1", ⟨"r", "mq"⟩)], [("u1", [])], [], [], 0, 0, 0⟩
        "u1" "d1" "key" "app_start"
        ⟨none, none, some (50, .fail [] ⟨false, "bad checksum"⟩)⟩).1.futures =
      some (.doneExc ⟨false, "bad checksum"⟩)) :=
  ⟨by decide, by decide, by decide, by decide,
   C10_decode_failure_fails_request
     ⟨["u1"], [("u1", ⟨"r", "mq"⟩)], [("u1", [])], [], [], 0, 0, 0⟩
     "u1" "d1" "key" "app_start" ⟨"r", "mq"⟩ 50 ⟨false, "bad checksum"⟩
     (by decide) (by decide) (by decide) (by decide)⟩

/-- Claim C9, amended part: a send that fails after registering the
pending request (subscribe or publish raised) returns the failure but does
not roll the registration back — the entry is still in the table when
`send_command` returns — and no lifecycle operation (`_close_session`,
`initialize`) ever removes pending entries. -/
theorem C9_error_path_keeps_pending (st : DaemonState)
    (user device localKey command : String) (rr : Rriot) (e : Exc)
    (hs : user ∈ st.sessions) (hr : lookupK user st.rriotData = some rr) :
    -- subscribe raises
    ((sendCommand st user device localKey command ⟨some e, none, none⟩).2.1 =
       excResult e ∧
     lookupK (requestId user device (st.requestCounter + 1))
       (sendCommand st user device localKey command
         ⟨some e, none, none⟩).1.pendingResponses = some st.nextFuture) ∧
    -- publish raises
    ((sendCommand st user device localKey command ⟨none, some e, none⟩).2.1 =
       excResult e ∧
     lookupK (requestId user device (st.requestCounter + 1))
       (sendCommand st user device localKey command
         ⟨none, some e, none⟩).1.pendingResponses = some st.nextFuture) ∧
    -- lifecycle operations never touch the pending-request table
    (∀ (s : DaemonState) (u : String),
       (closeSession s u).1.pendingResponses = s.pendingResponses) ∧
    (∀ (s : DaemonState) (u : String) (creds : Rriot) (cf : Option String),
       (initSession s u creds cf).1.pendingResponses = s.pendingResponses) := by
  refine ⟨⟨?_, ?_⟩, ⟨?_, ?_⟩, fun s u => rfl, ?_⟩
  · simp [sendCommand, hs, hr]
  · simp [sendCommand, hs, hr, lookupK_insertK_self]
  · simp [sendCommand, hs, hr, subscribeStep]
  · simp [sendCommand, hs, hr, subscribeStep, lookupK_insertK_self]
  · intro s u creds cf
    by_cases hm : u ∈ s.sessions <;> cases cf <;>
      simp [initSession, hm, show ∀ (s' : DaemonState) (u' : String),
        (closeSession s' u').1.pendingResponses = s'.pendingResponses from fun _ _ => rfl]

/-- Witness for the amended C9: a subscribe failure and a publish failure
against a concrete session. -/
theorem C9_error_path_keeps_pending_witness :
    "u1" ∈ DaemonState.sessions
        ⟨["u1"], [("u1", ⟨"r", "mq"⟩)], [("u1", [])], [], [], 0, 0, 0⟩ ∧
    lookupK "u1" (DaemonState.rriotData
        ⟨["u1"], [("u1", ⟨"r", "mq"⟩)], [("u1", [])], [], [], 0, 0, 0⟩) =
      some ⟨"r", "mq"⟩ ∧
    (((sendCommand ⟨["u1"], [("u1", ⟨"r", "mq"⟩)], [("u1", [])], [], [], 0, 0, 0⟩
        "u1" "d1" "key" "app_start" ⟨some ⟨true, "sub down"⟩, none, none⟩).2.1 =
       excResult ⟨true, "sub down"⟩ ∧
     lookupK (requestId "u1" "d1" (DaemonState.requestCounter
         ⟨["u1"], [("u1", ⟨"r", "mq"⟩)], [("u1", [])], [], [], 0, 0, 0⟩ + 1))
       (sendCommand ⟨["u1"], [("u1", ⟨"r", "mq"⟩)], [("u1", [])], [], [], 0, 0, 0⟩
         "u1" "d1" "key" "app_start"
         ⟨some ⟨true, "sub down"⟩, none, none⟩).1.pendingResponses =
       some (DaemonState.nextFuture
         ⟨["u1"], [("u1", ⟨"r", "mq"⟩)], [("u1", [])], [], [], 0, 0, 0⟩)) ∧
    ((sendCommand ⟨["u1"], [("u1", ⟨"r", "mq"⟩)], [("u1", [])], [], [], 0, 0, 0⟩
        "u1" "d1" "key" "app_start" ⟨none, some ⟨true, "sub down"⟩, none⟩).2.1 =
       excResult ⟨true, "sub down"⟩ ∧
     lookupK (requestId "u1" "d1" (DaemonState.requestCounter
         ⟨["u1"], [("u1", ⟨"r", "mq"⟩)], [("u1", [])], [], [], 0, 0, 0⟩ + 1))
       (sendCommand ⟨["u1"], [("u1", ⟨"r", "mq"⟩)], [("u1", [])], [], [], 0, 0, 0⟩
         "u1" "d1" "key" "app_start"
         ⟨none, some ⟨true, "sub down"⟩, none⟩).1.pendingResponses =
       some (DaemonState.nextFuture
         ⟨["u1"], [("u1", ⟨"r", "mq"⟩)], [("u1", [])], [], [], 0, 0, 0⟩)) ∧
    (∀ (s : DaemonState) (u : String),
       (closeSession s u).1.pendingResponses = s.pendingResponses) ∧
    (∀ (s : DaemonState) (u : String) (creds : Rriot) (cf : Option String),
       (initSession s u creds cf).1.pendingResponses = s.pendingResponses)) :=
  ⟨by decide, by decide,
   C9_error_path_keeps_pending
     ⟨["u1"], [("u1", ⟨"r", "mq"⟩)], [("u1", [])], [], [], 0, 0, 0⟩
     "u1" "d1" "key" "app_start" ⟨"r", "mq"⟩ ⟨true, "sub down"⟩
     (by decide) (by decide)⟩

/-- Counterexample to C9 as stated: after a publish failure the handler
installed by the failed send is still subscribed, and a later malformed
payload on the device channel pops the very entry the claim says is never
removed. -/
theorem C9_pending_removed_later_counterexample :
    (sendCommand ⟨["u1"], [("u1", ⟨"r", "mq"⟩)], [("u1", [])], [], [], 0, 0, 0⟩
        "u1" "d1" "key" "app_start" ⟨none, some ⟨true, "pub down"⟩, none⟩).2.1 =
      .err "pub down" ∧
    lookupK (requestId "u1" "d1" 1)
      (sendCommand ⟨["u1"], [("u1", ⟨"r", "mq"⟩)], [("u1", [])], [], [], 0, 0, 0⟩
        "u1" "d1" "key" "app_start"
        ⟨none, some ⟨true, "pub down"⟩, none⟩).1.pendingResponses = some 0 ∧
    lookupK (requestId "u1" "d1" 1)
      (onMessage (requestId "u1" "d1" 1) (.fail [] ⟨true, "boom"⟩)
        (sendCommand ⟨["u1"], [("u1", ⟨"r", "mq"⟩)], [("u1", [])], [], [], 0, 0, 0⟩
          "u1" "d1" "key" "app_start"
          ⟨none, some ⟨true, "pub down"⟩, none⟩).1).pendingResponses = none := by
  refine ⟨by decide, by decide, by decide⟩

/-- Any id in the tail of a run was built with a counter strictly above
the starting counter. -/
theorem runIds_mem_counter :
    ∀ (sends : List (String × String)) (c : Nat) (rid : String),
      rid ∈ runIds sends c → ∃ u d n, rid = requestId u d n ∧ c < n := by
  intro sends
  induction sends with
  | nil => intro c rid h; simp [runIds] at h
  | cons p rest ih =>
      intro c rid h
      obtain ⟨u, d⟩ := p
      simp only [runIds, List.mem_cons] at h
      rcases h with h | h
      · exact ⟨u, d, c + 1, h, Nat.lt_succ_self c⟩
      · obtain ⟨u', d', n, hn, hlt⟩ := ih (c + 1) rid h
        exact ⟨u', d', n, hn, Nat.lt_of_succ_lt hlt⟩

theorem runIds_pairwise_ne (sends : List (String × String)) :
    ∀ c : Nat, (runIds sends c).Pairwise (· ≠ ·) := by
  induction sends with
  | nil => intro c; exact List.Pairwise.nil
  | cons p rest ih =>
      intro c
      obtain ⟨u, d⟩ := p
      refine List.Pairwise.cons ?_ (ih (c + 1))
      intro rid hrid heq
      obtain ⟨u', d', n, hn, hlt⟩ := runIds_mem_counter rest (c + 1) rid hrid
      rw [hn] at heq
      have := requestIdCtrInj heq
      omega

theorem runCounters_eq_range' :
    ∀ (sends : List (String × String)) (c : Nat),
      runCounters sends c = List.range' (c + 1) sends.length := by
  intro sends
  induction sends with
  | nil => intro c; rfl
  | cons p rest ih =>
      intro c
      simp [runCounters, List.range'_succ, ih (c + 1), Nat.add_assoc, Nat.add_comm 1 1]

theorem processMsg_requestCounter (rid : String) (st : DaemonState) (m : DecodedMsg) :
    (processMsg rid st m).requestCounter = st.requestCounter := by
  cases m with
  | rpcResponse resp =>
      cases h : lookupK rid st.pendingResponses <;>
        simp [processMsg, h, setResultOk, updateFut]
  | otherProtocol => rfl

theorem foldlProcessMsg_requestCounter (rid : String) :
    ∀ (msgs : List DecodedMsg) (st : DaemonState),
      (msgs.foldl (processMsg rid) st).requestCounter = st.requestCounter := by
  intro msgs
  induction msgs with
  | nil => intro st; rfl
  | cons m rest ih =>
      intro st
      rw [List.foldl_cons, ih, processMsg_requestCounter]

theorem onMessage_requestCounter (rid : String) (ev : ParseEvent) (st : DaemonState) :
    (onMessage rid ev st).requestCounter = st.requestCounter := by
  cases ev with
  | ok msgs => exact foldlProcessMsg_requestCounter rid msgs st
  | fail msgs e =>
      simp only [onMessage]
      cases h : lookupK rid (msgs.foldl (processMsg rid) st).pendingResponses <;>
        simp [h, setResultExc, updateFut, foldlProcessMsg_requestCounter]

theorem awaitStep_requestCounter (st : DaemonState) (rid : String) (fr : Nat)
    (inbound : Option (Nat × ParseEvent)) :
    (awaitStep st rid fr inbound).1.requestCounter = st.requestCounter := by
  unfold awaitStep
  repeat' split <;>
    simp_all [onMessage_requestCounter, timeoutPathStep, cancelFut, updateFut]

/-- Claim C4: request identifiers allocated within one process run are
pairwise distinct, the underlying global counter is strictly increasing
(the consumed values are the contiguous range above the start, so none is
reused), and every `send_command` that passes the session check bumps the
shared counter by exactly one, regardless of the users or devices
targeted. -/
theorem C4_request_ids_unique (sends : List (String × String)) (st : DaemonState)
    (user device localKey command : String) (env : SendEnv) :
    (runIds sends 0).Pairwise (· ≠ ·) ∧
    runCounters sends 0 = List.range' 1 sends.length ∧
    (sendCommand st user device localKey command env).1.requestCounter =
      (if user ∈ st.sessions ∧ (lookupK user st.rriotData).isSome then
        st.requestCounter + 1
      else st.requestCounter) := by
  refine ⟨runIds_pairwise_ne sends 0, runCounters_eq_range' sends 0, ?_⟩
  by_cases hm : user ∈ st.sessions
  · cases hrr : lookupK user st.rriotData with
    | none => simp [sendCommand, hm, hrr]
    | some rr =>
        obtain ⟨sf, pf, inb⟩ := env
        cases sf <;> cases pf <;>
          simp [sendCommand, hm, hrr, subscribeStep, awaitStep_requestCounter]
  · simp [sendCommand, hm]

/-- Witness for C4 on a run whose user/device strings even contain colons. -/
theorem C4_request_ids_unique_witness :
    (runIds [("u1", "d1"), ("u1:d1", "x"), ("u1", "d1")] 0).Pairwise (· ≠ ·) ∧
    runCounters [("u1", "d1"), ("u1:d1", "x"), ("u1", "d1")] 0 =
      List.range' 1 (List.length [("u1", "d1"), ("u1:d1", "x"), ("u1", "d1")]) ∧
    (sendCommand ⟨["u1"], [("u1", ⟨"r", "mq"⟩)], [("u1", [])], [], [], 0, 0, 0⟩
        "u1" "d1" "key" "app_start" ⟨none, none, none⟩).1.requestCounter =
      (if "u1" ∈ DaemonState.sessions
            ⟨["u1"], [("u1", ⟨"r", "mq"⟩)], [("u1", [])], [], [], 0, 0, 0⟩ ∧
          (lookupK "u1" (DaemonState.rriotData
            ⟨["u1"], [("u1", ⟨"r", "mq"⟩)], [("u1", [])], [], [], 0, 0, 0⟩)).isSome then
        DaemonState.requestCounter
            ⟨["u1"], [("u1", ⟨"r", "mq"⟩)], [("u1", [])], [], [], 0, 0, 0⟩ + 1
      else DaemonState.requestCounter
            ⟨["u1"], [("u1", ⟨"r", "mq"⟩)], [("u1", [])], [], [], 0, 0, 0⟩) :=
  C4_request_ids_unique [("u1", "d1"), ("u1:d1", "x"), ("u1", "d1")]
    ⟨["u1"], [("u1", ⟨"r", "mq"⟩)], [("u1", [])], [], [], 0, 0, 0⟩
    "u1" "d1" "key" "app_start" ⟨none, none, none⟩

/-- Counterexample to C3 as stated: two concurrent sends to the same
`(user, device)` pair can interleave around the `await session.subscribe`
suspension point so that both membership checks (line 162) run before
either store (line 164).  The reachable end state has two live inbound
handlers at the transport for the one device, while the subscription map
remembers only the second token — token 0 is live but orphaned. -/
theorem C3_two_live_handlers_counterexample :
    MuxReach muxRaceStart muxRaceEnd ∧
    muxRaceEnd.mux.live.length = 2 ∧
    muxRaceEnd.mux.entry = some 1 ∧
    0 ∈ muxRaceEnd.mux.live := by
  have h1 : MuxStep muxRaceStart ⟨⟨none, [], 0⟩, .awaitingSub, .ready⟩ :=
    MuxStep.checkA ⟨⟨none, [], 0⟩, .ready, .ready⟩ rfl
  have h2 : MuxStep (⟨⟨none, [], 0⟩, .awaitingSub, .ready⟩ : ConcState)
      ⟨⟨none, [], 0⟩, .awaitingSub, .awaitingSub⟩ :=
    MuxStep.checkB ⟨⟨none, [], 0⟩, .awaitingSub, .ready⟩ rfl
  have h3 : MuxStep (⟨⟨none, [], 0⟩, .awaitingSub, .awaitingSub⟩ : ConcState)
      ⟨⟨some 0, [0], 1⟩, .finished, .awaitingSub⟩ :=
    MuxStep.storeA ⟨⟨none, [], 0⟩, .awaitingSub, .awaitingSub⟩ rfl
  have h4 : MuxStep (⟨⟨some 0, [0], 1⟩, .finished, .awaitingSub⟩ : ConcState) muxRaceEnd :=
    MuxStep.storeB ⟨⟨some 0, [0], 1⟩, .finished, .awaitingSub⟩ rfl
  exact ⟨Relation.ReflTransGen.head h1 (Relation.ReflTransGen.head h2
    (Relation.ReflTransGen.head h3 (Relation.ReflTransGen.single h4))),
    by decide, by decide, by decide⟩

/-- Claim C3, amended part: when the subscription block runs without
interleaving (sequential sends), it keeps at most one live handler per
`(user, device)`: a first send subscribes and stores the token, a later
send removes the old token via `old_unsub()` and then subscribes and
stores the new one, so the one stored entry is exactly the one live
handler. -/
theorem C3_sequential_single_subscription (m : MuxState)
    (hinv : m.live = m.entry.toList) :
    ensureSubscription m = ⟨some m.nextTok, [m.nextTok], m.nextTok + 1⟩ ∧
    (ensureSubscription m).live.length ≤ 1 ∧
    (ensureSubscription m).live = (ensureSubscription m).entry.toList := by
  have h : ensureSubscription m = ⟨some m.nextTok, [m.nextTok], m.nextTok + 1⟩ := by
    obtain ⟨e, lv, tk⟩ := m
    cases e with
    | none =>
        simp only [Option.toList] at hinv
        simp [ensureSubscription, muxCheck, muxStore, hinv]
    | some tok =>
        simp only [Option.toList] at hinv
        simp [ensureSubscription, muxCheck, muxStore, hinv]
  exact ⟨h, by rw [h]; simp, by rw [h]; rfl⟩

/-- Witness for the amended C3 at a state holding one old subscription. -/
theorem C3_sequential_single_subscription_witness :
    (MuxState.live ⟨some 7, [7], 9⟩ = (MuxState.entry ⟨some 7, [7], 9⟩).toList) ∧
    (ensureSubscription ⟨some 7, [7], 9⟩ =
      ⟨some (MuxState.nextTok ⟨some 7, [7], 9⟩), [MuxState.nextTok ⟨some 7, [7], 9⟩],
        MuxState.nextTok ⟨some 7, [7], 9⟩ + 1⟩ ∧
    (ensureSubscription ⟨some 7, [7], 9⟩).live.length ≤ 1 ∧
    (ensureSubscription ⟨some 7, [7], 9⟩).live =
      (ensureSubscription ⟨some 7, [7], 9⟩).entry.toList) :=
  ⟨by decide, C3_sequential_single_subscription ⟨some 7, [7], 9⟩ (by decide)⟩

/-- Counterexample to C7 as stated: `send_command` has no timeout
parameter — nothing in its argument list (user, device, local key,
command, params) carries a deadline — and a send that no reply resolves
returns at the fixed 30000 ms mark, not at the 100 ms the claim's example
expects for a caller asking for a 100 ms timeout. -/
theorem C7_no_caller_timeout_counterexample :
    (sendCommand ⟨["u1"], [("u1", ⟨"r", "mq"⟩)], [("u1", [])], [], [], 0, 0, 0⟩
        "u1" "d1" "key" "app_start" ⟨none, none, none⟩).2.2.2 = 30000 ∧
    commandTimeout = 30000 ∧
    (30000 : Nat) ≠ 100 :=
  ⟨by decide, rfl, by decide⟩

/-- Claim C7, amended part: the daemon's `send_command` always waits with
the fixed 30-second `commandTimeout` (line 189); only the CLI bridge's
`send_mqtt_request` takes an explicit timeout parameter, and its wait
lasts exactly that caller-given value. -/
theorem C7_daemon_fixed_bridge_param_timeout (st : DaemonState)
    (user device localKey command : String) (rr : Rriot)
    (hs : user ∈ st.sessions) (hr : lookupK user st.rriotData = some rr) :
    (∀ env : SendEnv, env.subscribeFail = none → env.publishFail = none →
       env.inbound = none →
       (sendCommand st user device localKey command env).2.2.2 = commandTimeout) ∧
    commandTimeout = 30000 ∧
    (∀ timeout : Nat, (bridgeSend timeout none).2 = timeout ∧
       (bridgeSend timeout none).1 = .err "Command timeout") := by
  refine ⟨?_, rfl, ?_⟩
  · rintro ⟨sf, pf, inb⟩ h1 h2 h3
    simp only at h1 h2 h3
    subst h1; subst h2; subst h3
    simp [sendCommand, hs, hr, awaitStep, subscribeStep, lookupK_insertK_self]
  · intro timeout
    exact ⟨rfl, rfl⟩

/-- Witness for the amended C7. -/
theorem C7_daemon_fixed_bridge_param_timeout_witness :
    "u1" ∈ DaemonState.sessions
        ⟨["u1"], [("u1", ⟨"r", "mq"⟩)], [("u1", [])], [], [], 0, 0, 0⟩ ∧
    lookupK "u1" (DaemonState.rriotData
        ⟨["u1"], [("u1", ⟨"r", "mq"⟩)], [("u1", [])], [], [], 0, 0, 0⟩) =
      some ⟨"r", "mq"⟩ ∧
    ((∀ env : SendEnv, env.subscribeFail = none → env.publishFail = none →
       env.inbound = none →
       (sendCommand ⟨["u1"], [("u1", ⟨"r", "mq"⟩)], [("u1", [])], [], [], 0, 0, 0⟩
           "u1" "d1" "key" "app_start" env).2.2.2 = commandTimeout) ∧
    commandTimeout = 30000 ∧
    (∀ timeout : Nat, (bridgeSend timeout none).2 = timeout ∧
       (bridgeSend timeout none).1 = .err "Command timeout")) :=
  ⟨by decide, by decide,
   C7_daemon_fixed_bridge_param_timeout
     ⟨["u1"], [("u1", ⟨"r", "mq"⟩)], [("u1", [])], [], [], 0, 0, 0⟩
     "u1" "d1" "key" "app_start" ⟨"r", "mq"⟩ (by decide) (by decide)⟩

end Roborock
